import Mathlib

/-!
Verification of the NetSentryX real-time flow aggregation and mitigation
engine.  Definitions are shallow embeddings of the Python source:
`realtime_agent/realtime_extractor.py` (event buffers, window aggregation,
replay timing) and `api/app.py` (enforcement helpers, attack-type
heuristics, block/unblock state machine, policy configuration).
Timestamps and rates are modelled as exact rationals; wall-clock reads
(`datetime.utcnow()`) within one handler invocation are modelled by a
single `now` parameter.
-/

namespace NetSentryX

/-- One normalized observation, from `Event` in
`realtime_agent/realtime_extractor.py`. -/
structure Event where
  ts : ℚ
  src_ip : String
  dst_ip : Option String
  size : ℕ
  dport : Option ℕ
  proto : String
  is_syn : ℕ
  is_ack : ℕ
  is_rst : ℕ
  is_fin : ℕ
deriving Repr, DecidableEq

/-- The feature dictionary built by `compute_features_for_src`
(core fields plus the `extra` entries that are plain aggregates). -/
structure Features where
  src_ip : String
  total_packets : ℕ
  total_bytes : ℕ
  duration : ℚ
  pkts_per_sec : ℚ
  bytes_per_sec : ℚ
  syn_count : ℕ
  unique_dst_ports : ℕ
  avg_pkt_size : ℚ
  unique_dst_ips : ℕ
  tcp_ack : ℕ
  tcp_rst : ℕ
  tcp_fin : ℕ
deriving Repr, DecidableEq

/-- The `1e-6` duration floor used in `compute_features_for_src`. -/
def eps : ℚ := 1 / 1000000

/-- `first_ts` of the aggregation loop: the minimum timestamp of the
buffered events (`None` on an empty buffer). -/
def firstTs : List Event → Option ℚ
  | [] => none
  | e :: rest => some (rest.foldl (fun acc x => min acc x.ts) e.ts)

/-- `last_ts` of the aggregation loop: the maximum timestamp of the
buffered events (`None` on an empty buffer). -/
def lastTs : List Event → Option ℚ
  | [] => none
  | e :: rest => some (rest.foldl (fun acc x => max acc x.ts) e.ts)

/-- The `duration` computation of `compute_features_for_src`:
`max(last_ts - first_ts, 1e-6)` when timestamps exist, otherwise
`max(window_size, 1e-6)`. -/
def durationOf (window_size : ℚ) (dq : List Event) : ℚ :=
  match firstTs dq, lastTs dq with
  | some f, some l => max (l - f) eps
  | _, _ => max window_size eps

/-- The aggregation body of `compute_features_for_src`, evaluated over the
trimmed buffer `dq`. -/
def featuresOf (src : String) (window_size : ℚ) (dq : List Event) : Features :=
  let total_packets := dq.length
  let total_bytes := (dq.map Event.size).sum
  let syn_count := (dq.map Event.is_syn).sum
  let tcp_ack := (dq.map Event.is_ack).sum
  let tcp_rst := (dq.map Event.is_rst).sum
  let tcp_fin := (dq.map Event.is_fin).sum
  let dst_ports := (dq.filterMap Event.dport).dedup
  let dst_ips := (dq.filterMap Event.dst_ip).dedup
  let duration := durationOf window_size dq
  let avg_pkt_size : ℚ := if 0 < total_packets then (total_bytes : ℚ) / (total_packets : ℚ) else 0
  let pkts_per_sec : ℚ := if 0 < duration then (total_packets : ℚ) / duration else 0
  let bytes_per_sec : ℚ := if 0 < duration then (total_bytes : ℚ) / duration else 0
  { src_ip := src
    total_packets := total_packets
    total_bytes := total_bytes
    duration := duration
    pkts_per_sec := pkts_per_sec
    bytes_per_sec := bytes_per_sec
    syn_count := syn_count
    unique_dst_ports := if dst_ports.length = 0 then 1 else dst_ports.length
    avg_pkt_size := avg_pkt_size
    unique_dst_ips := dst_ips.length
    tcp_ack := tcp_ack
    tcp_rst := tcp_rst
    tcp_fin := tcp_fin }

/-- `compute_features_for_src(src, window_size)` at reference time `now`,
acting on the source's buffer `dq`: pops every event with
`ts < now - window_size` from the left, then returns the aggregated
features, or `none` if nothing remains.  Returns the buffer as left
behind by the call together with the optional feature vector. -/
def compute_features_for_src (src : String) (window_size now : ℚ)
    (dq : List Event) : List Event × Option Features :=
  let trimmed := dq.dropWhile (fun e => decide (e.ts < now - window_size))
  match trimmed with
  | [] => (trimmed, none)
  | _ :: _ => (trimmed, some (featuresOf src window_size trimmed))

/-- The `FeatureVec` request model of `api/app.py`. -/
structure FeatureVec where
  src_ip : String
  total_packets : ℕ
  total_bytes : ℕ
  duration : ℚ
  pkts_per_sec : ℚ
  bytes_per_sec : ℚ
  syn_count : ℕ
  unique_dst_ports : ℕ
deriving Repr, DecidableEq

/-- `classify_attack_type` from `api/app.py`: five heuristic rules tried
in order, first match wins. -/
def classify_attack_type (fv : FeatureVec) : String :=
  if 10 < fv.unique_dst_ports ∧
      (fv.total_packets : ℚ) / ((max fv.unique_dst_ports 1 : ℕ) : ℚ) < 5 then
    "Port Scan"
  else if 1000 < fv.pkts_per_sec ∨ 1000000 < fv.bytes_per_sec then
    "DDoS"
  else if 20 < fv.syn_count ∧ 10 < fv.pkts_per_sec then
    "Brute Force"
  else if 10 < fv.duration ∧ fv.pkts_per_sec < 50 then
    "Bot"
  else
    "Suspicious Activity"

/-- The private/local address ranges refused by `block_ip_iptables`. -/
def privatePrefixes : List String :=
  ["127.", "10.", "192.168.", "172.16.", "172.17.", "172.18.", "172.19.",
   "172.20.", "172.21.", "172.22.", "172.23.", "172.24.", "172.25.",
   "172.26.", "172.27.", "172.28.", "172.29.", "172.30.", "172.31."]

/-- `ip.startswith(private_prefixes)` from `block_ip_iptables`,
expressed on the underlying character lists. -/
def isPrivateIP (ip : String) : Bool :=
  privatePrefixes.any (fun p => p.data.isPrefixOf ip.data)

/-- Host environment for the enforcement helpers: the
`USE_REAL_BLOCKING` toggle, whether the `iptables` binary exists, and
whether the subprocess call would succeed. -/
structure EnforcementEnv where
  use_real_blocking : Bool
  iptables_available : Bool
  iptables_ok : Bool
deriving Repr, DecidableEq

/-- Result of an enforcement helper: `attempted` records whether the
external `iptables` command was invoked at all, `ok` the boolean the
function returns. -/
structure EnforcementOutcome where
  attempted : Bool
  ok : Bool
deriving Repr, DecidableEq

/-- `block_ip_iptables` from `api/app.py`: refuses private addresses,
then mocks unless real blocking is enabled and iptables exists, then
invokes the external command. -/
def block_ip_iptables (env : EnforcementEnv) (ip : String) : EnforcementOutcome :=
  if isPrivateIP ip then ⟨false, false⟩
  else if !env.use_real_blocking then ⟨false, false⟩
  else if !env.iptables_available then ⟨false, false⟩
  else ⟨true, env.iptables_ok⟩

/-- `unblock_ip_iptables` from `api/app.py`: mocks unless real blocking
is enabled and iptables exists, then invokes the external command.
Note: it performs no private-address check. -/
def unblock_ip_iptables (env : EnforcementEnv) (ip : String) : EnforcementOutcome :=
  if !env.use_real_blocking then ⟨false, false⟩
  else if !env.iptables_available then ⟨false, false⟩
  else ⟨true, env.iptables_ok⟩

/-- A document of the `blocked_ips` collection, as built by
`schedule_block_and_unblock`. -/
structure BlockEntry where
  ip : String
  blocked_at : ℕ
  unblock_at : ℕ
  duration_sec : ℕ
  reason : String
  actor : String
  note : Option String
  expireAt : ℕ
deriving Repr, DecidableEq

/-- A document of the permanent `blocked_ips_history` collection. -/
structure BlockHistoryEntry where
  ip : String
  blocked_at : ℕ
  unblock_at : ℕ
  duration_sec : ℕ
  reason : String
  actor : String
  note : Option String
deriving Repr, DecidableEq

/-- The mitigation-relevant database state: active blocks and the
append-only block history. -/
structure DBState where
  blocked_ips : List BlockEntry
  blocked_ips_history : List BlockHistoryEntry
deriving Repr, DecidableEq

/-- Number of active `blocked_ips` documents for the address `ip`. -/
def countActive (st : DBState) (ip : String) : ℕ :=
  (st.blocked_ips.filter (fun e => decide (e.ip = ip))).length

/-- `schedule_block_and_unblock` from `api/app.py`, with all
`datetime.utcnow()` reads of the invocation modelled by `now`: if an
active document for `ip` already exists the call is a no-op; otherwise
it inserts a `blocked_ips` document with `unblock_at = now + duration`
and a matching history document, then invokes `block_ip_iptables`.  The
returned boolean records whether `block_ip_iptables` was invoked. -/
def schedule_block_and_unblock (now : ℕ) (ip : String) (duration_sec : ℕ)
    (reason actor : String) (note : Option String) (st : DBState) :
    DBState × Bool :=
  if st.blocked_ips.any (fun e => decide (e.ip = ip)) then
    (st, false)
  else
    let unblock_at := now + duration_sec
    let doc : BlockEntry :=
      { ip := ip, blocked_at := now, unblock_at := unblock_at,
        duration_sec := duration_sec, reason := reason, actor := actor,
        note := note, expireAt := unblock_at }
    let history_doc : BlockHistoryEntry :=
      { ip := ip, blocked_at := now, unblock_at := unblock_at,
        duration_sec := duration_sec, reason := reason, actor := actor,
        note := note }
    ({ blocked_ips := st.blocked_ips ++ [doc],
       blocked_ips_history := st.blocked_ips_history ++ [history_doc] },
     true)

/-- The Mongo TTL index on `expireAt` (`expireAfterSeconds=0`): at time
`t` it removes every `blocked_ips` document whose `expireAt` has
arrived.  The history collection has no TTL index. -/
def ttl_expire (t : ℕ) (st : DBState) : DBState :=
  { st with blocked_ips := st.blocked_ips.filter (fun e => decide (t < e.expireAt)) }

/-- `remove_block` from `api/app.py`: `delete_many({"ip": ip})` on
`blocked_ips`, then invokes `unblock_ip_iptables` (boolean records the
invocation). -/
def remove_block (ip : String) (st : DBState) : DBState × Bool :=
  ({ st with blocked_ips := st.blocked_ips.filter (fun e => decide (e.ip ≠ ip)) },
   true)

/-- The mitigation-relevant tail of the `/detect` handler (`detect` in
`api/app.py`): on a positive verdict (`prob ≥ threshold`) it first
consults the whitelist — a whitelisted source records the alert but
schedules nothing — and otherwise schedules a block only when
`blocking_enabled` is set.  The boolean records whether
`schedule_block_and_unblock` was scheduled. -/
def detect_mitigation (now : ℕ) (whitelist : List String)
    (threshold prob : ℚ) (blocking_enabled : Bool)
    (block_duration_sec : ℕ) (fv : FeatureVec) (st : DBState) :
    DBState × Bool :=
  if threshold ≤ prob then
    if whitelist.contains fv.src_ip then (st, false)
    else if blocking_enabled then
      ((schedule_block_and_unblock now fv.src_ip block_duration_sec
          (classify_attack_type fv) "model" none st).1, true)
    else (st, false)
  else (st, false)

/-- `BLOCK_DURATION_SEC` default from `api/app.py`. -/
def DEFAULT_BLOCK_DURATION_SEC : ℤ := 600

/-- The `/admin/block` handler (`manual_block` in `api/app.py`):
`duration = payload.duration_sec or DEFAULT` (Python `or`, so `None`
and `0` both fall back to the default), rejects non-positive durations,
then calls `schedule_block_and_unblock` directly — no whitelist
lookup appears in this handler. -/
def manual_block (now : ℕ) (ip : String) (duration_sec : Option ℤ)
    (note : Option String) (st : DBState) :
    Except String (DBState × Bool) :=
  let d : ℤ :=
    match duration_sec with
    | none => DEFAULT_BLOCK_DURATION_SEC
    | some v => if v = 0 then DEFAULT_BLOCK_DURATION_SEC else v
  if d ≤ 0 then .error "duration_sec must be positive"
  else .ok (schedule_block_and_unblock now ip d.toNat "manual" "admin" note st)

/-- The cached `PolicyConfig` document. -/
structure PolicyConfig where
  threshold : ℚ
  block_duration_sec : ℤ
  blocking_enabled : Bool
  updated_at : Option ℕ
deriving Repr, DecidableEq

/-- The `ConfigUpdate` request model of `api/app.py`: it accepts a
`blocking_enabled` field. -/
structure ConfigUpdate where
  threshold : Option ℚ
  block_duration_sec : Option ℤ
  blocking_enabled : Option Bool
deriving Repr, DecidableEq

/-- The `/admin/config` update handler (`update_config` in
`api/app.py`): validates and collects `threshold` and
`block_duration_sec` into the update set, adds `updated_at` when the set
is non-empty, and applies it to the cached config.  The payload's
`blocking_enabled` field is never read. -/
def update_config (now : ℕ) (payload : ConfigUpdate) (cfg : PolicyConfig) :
    Except String PolicyConfig :=
  match payload.threshold with
  | some t =>
    if ¬ (0 ≤ t ∧ t ≤ 1) then .error "threshold must be between 0 and 1"
    else
      match payload.block_duration_sec with
      | some d =>
        if d ≤ 0 then .error "block_duration_sec must be positive"
        else .ok { cfg with threshold := t, block_duration_sec := d,
                            updated_at := some now }
      | none => .ok { cfg with threshold := t, updated_at := some now }
  | none =>
    match payload.block_duration_sec with
    | some d =>
      if d ≤ 0 then .error "block_duration_sec must be positive"
      else .ok { cfg with block_duration_sec := d, updated_at := some now }
    | none => .ok cfg

/-- The inter-packet wait of `start_replay` in
`realtime_agent/realtime_extractor.py`:
`max(0.0, (cur_ts - prev_ts) / max(1.0, speed))`. -/
def replay_wait (prev_ts cur_ts speed : ℚ) : ℚ :=
  max 0 ((cur_ts - prev_ts) / max 1 speed)

/-- The sequence of waits performed by `start_replay` over the packet
timestamps of a capture (`prev_ts` starts at the first packet's
timestamp). -/
def replayWaits (speed : ℚ) (ts : List ℚ) : List ℚ :=
  match ts with
  | [] => []
  | t0 :: _ => (List.zip (t0 :: ts) ts).map (fun p => replay_wait p.1 p.2 speed)

/-! ### Helper lemmas -/

/-- On a buffer sorted by timestamp, popping stale events from the left
is the same as filtering the whole buffer by the window condition. -/
lemma dropWhile_lt_eq_filter_of_sorted (c : ℚ) (dq : List Event)
    (h : List.Pairwise (fun a b : Event => a.ts ≤ b.ts) dq) :
    dq.dropWhile (fun e => decide (e.ts < c))
      = dq.filter (fun e => decide (c ≤ e.ts)) := by
  induction dq with
  | nil => rfl
  | cons a l ih =>
    rcases List.pairwise_cons.mp h with ⟨ha, hl⟩
    by_cases hc : a.ts < c
    · have hc' : ¬ c ≤ a.ts := not_le.mpr hc
      simp only [List.dropWhile_cons, List.filter_cons, decide_eq_true_eq, hc, hc', if_true,
        if_false, decide_eq_false_iff_not, not_false_eq_true]
      exact ih hl
    · have hc' : c ≤ a.ts := not_lt.mp hc
      simp only [List.dropWhile_cons, List.filter_cons, decide_eq_true_eq, hc, hc', if_true,
        if_false]
      rw [List.filter_eq_self.mpr]
      intro b hb
      simpa using le_trans hc' (ha b hb)

/-- If no active document for `ip` exists then `countActive` is zero. -/
lemma countActive_eq_zero_of_any_false {st : DBState} {ip : String}
    (h : st.blocked_ips.any (fun e => decide (e.ip = ip)) = false) :
    countActive st ip = 0 := by
  simp only [List.any_eq_false, decide_eq_true_eq] at h
  unfold countActive
  simp only [List.length_eq_zero, List.filter_eq_nil_iff, decide_eq_true_eq]
  exact h

/-- A positive `countActive` yields a positive existence check. -/
lemma any_true_of_countActive_pos (st : DBState) (ip : String)
    (h : 0 < countActive st ip) :
    st.blocked_ips.any (fun e => decide (e.ip = ip)) = true := by
  by_contra hb
  simp only [Bool.not_eq_true] at hb
  have h0 := countActive_eq_zero_of_any_false hb
  omega

/-- `unique_dst_ports` as computed by the aggregation body is positive. -/
lemma featuresOf_unique_dst_ports_pos (src : String) (W : ℚ) (dq : List Event) :
    1 ≤ (featuresOf src W dq).unique_dst_ports := by
  simp only [featuresOf]
  split
  · exact le_refl 1
  · next h => omega

/-! ### Claims -/

/-- Claim C1: for a source buffer with non-decreasing timestamps,
`compute_features_for_src` at reference time `T` with window `W` evicts
exactly the events with `ts < T − W` from the buffer, returns `none`
precisely when no event with `ts ≥ T − W` remains, and otherwise returns
the features aggregated over exactly the events with `ts ≥ T − W`. -/
theorem computeWindow_evicts_and_aggregates (src : String) (W T : ℚ)
    (dq : List Event)
    (hs : List.Pairwise (fun a b : Event => a.ts ≤ b.ts) dq) :
    (compute_features_for_src src W T dq).1
        = dq.filter (fun e => decide (T - W ≤ e.ts)) ∧
    ((compute_features_for_src src W T dq).2 = none ↔
        dq.filter (fun e => decide (T - W ≤ e.ts)) = []) ∧
    (dq.filter (fun e => decide (T - W ≤ e.ts)) ≠ [] →
      (compute_features_for_src src W T dq).2
        = some (featuresOf src W (dq.filter (fun e => decide (T - W ≤ e.ts))))) := by
  have hdw := dropWhile_lt_eq_filter_of_sorted (T - W) dq hs
  simp only [compute_features_for_src, hdw]
  cases hfil : dq.filter (fun e => decide (T - W ≤ e.ts)) with
  | nil => simp
  | cons a l => simp

/-- Claim C1 witness: a concrete sorted two-event buffer at `W = 5`,
`T = 12` keeps exactly the event at `ts = 10`. -/
theorem computeWindow_evicts_and_aggregates_witness :
    (compute_features_for_src "s" 5 12
        [⟨0, "s", none, 100, none, "OTHER", 0, 0, 0, 0⟩,
         ⟨10, "s", some "d", 200, some 80, "TCP", 1, 0, 0, 0⟩]).2
      = some (featuresOf "s" 5
          ([⟨0, "s", none, 100, none, "OTHER", 0, 0, 0, 0⟩,
            ⟨10, "s", some "d", 200, some 80, "TCP", 1, 0, 0, 0⟩].filter
              (fun e => decide ((12 : ℚ) - 5 ≤ e.ts)))) :=
  (computeWindow_evicts_and_aggregates "s" 5 12 _ (by decide)).2.2
    (by norm_num [List.filter])

/-- Claim C2: a block request for an address with an active entry is a
no-op — the state is unchanged, the address still has exactly one
active entry, no enforcement apply call is made — and every block
request preserves the at-most-one-active-entry-per-address invariant. -/
theorem block_request_idempotent (now : ℕ) (ip : String) (d : ℕ)
    (reason actor : String) (note : Option String) (st : DBState)
    (h : countActive st ip = 1) :
    schedule_block_and_unblock now ip d reason actor note st = (st, false) ∧
    countActive (schedule_block_and_unblock now ip d reason actor note st).1 ip = 1 ∧
    (∀ (n' d' : ℕ) (ip' r' a' : String) (nt' : Option String) (s : DBState) (a : String),
      countActive s a ≤ 1 →
      countActive (schedule_block_and_unblock n' ip' d' r' a' nt' s).1 a ≤ 1) := by
  have hany := any_true_of_countActive_pos st ip (by omega)
  have heq : schedule_block_and_unblock now ip d reason actor note st = (st, false) := by
    simp [schedule_block_and_unblock, hany]
  refine ⟨heq, by rw [heq]; exact h, ?_⟩
  intro n' d' ip' r' a' nt' s a hle
  by_cases hs2 : s.blocked_ips.any (fun e => decide (e.ip = ip')) = true
  · simpa [schedule_block_and_unblock, hs2] using hle
  · have hs3 : s.blocked_ips.any (fun e => decide (e.ip = ip')) = false := by
      simpa using hs2
    have h0 := countActive_eq_zero_of_any_false hs3
    simp only [schedule_block_and_unblock, hs3, Bool.false_eq_true, if_false]
    unfold countActive at h0 hle ⊢
    simp only [List.filter_append, List.length_append]
    by_cases hip : ip' = a
    · subst hip
      simp only [List.filter_cons, List.filter_nil, decide_eq_true_eq]
      split
      · simp only [List.length_cons, List.length_nil]
        omega
      · simp only [List.length_nil]
        omega
    · simp only [List.filter_cons, List.filter_nil, decide_eq_true_eq]
      rw [if_neg hip]
      simpa using hle

/-- Claim C2 witness: a second block request for an address with an
active entry leaves the one-entry state unchanged and makes no apply
call. -/
theorem block_request_idempotent_witness :
    schedule_block_and_unblock 5 "9.9.9.9" 60 "manual" "admin" none
        ⟨[⟨"9.9.9.9", 0, 600, 600, "manual", "admin", none, 600⟩], []⟩
      = (⟨[⟨"9.9.9.9", 0, 600, 600, "manual", "admin", none, 600⟩], []⟩, false) :=
  (block_request_idempotent 5 "9.9.9.9" 60 "manual" "admin" none _ (by decide)).1

/-- Claim C3 counterexample: the `/admin/block` handler performs no
whitelist lookup, so it creates an active BlockEntry for an address on
the whitelist. -/
theorem manual_block_whitelisted_cex :
    (["203.0.113.9"] : List String).contains "203.0.113.9" = true ∧
    manual_block 0 "203.0.113.9" (some 600) none ⟨[], []⟩ =
      .ok (⟨[⟨"203.0.113.9", 0, 600, 600, "manual", "admin", none, 600⟩],
            [⟨"203.0.113.9", 0, 600, 600, "manual", "admin", none⟩]⟩, true) ∧
    countActive ⟨[⟨"203.0.113.9", 0, 600, 600, "manual", "admin", none, 600⟩],
            [⟨"203.0.113.9", 0, 600, 600, "manual", "admin", none⟩]⟩ "203.0.113.9" = 1 :=
  ⟨by decide, by rfl, by decide⟩

/-- Claim C3 amended: the whitelist is consulted in the detection path,
so `/detect` never schedules a block for a whitelisted source,
regardless of the classifier score; the `/admin/block` endpoint does
not consult the whitelist. -/
theorem detect_skips_whitelisted (now : ℕ) (whitelist : List String)
    (threshold prob : ℚ) (blocking_enabled : Bool) (block_duration_sec : ℕ)
    (fv : FeatureVec) (st : DBState)
    (h : whitelist.contains fv.src_ip = true) :
    detect_mitigation now whitelist threshold prob blocking_enabled
      block_duration_sec fv st = (st, false) := by
  unfold detect_mitigation
  split <;> simp [h]

/-- Claim C3 witness: a whitelisted source with score above threshold
schedules nothing. -/
theorem detect_skips_whitelisted_witness :
    detect_mitigation 0 ["9.9.9.9"] (7/10) 1 true 600
      ⟨"9.9.9.9", 1, 1, 1, 1, 1, 0, 1⟩ ⟨[], []⟩ = (⟨[], []⟩, false) :=
  detect_skips_whitelisted 0 ["9.9.9.9"] (7/10) 1 true 600 _ _ (by decide)

/-- Claim C4 counterexample: `unblock_ip_iptables` has no private-range
check, so with real blocking enabled and iptables available the removal
command is attempted against a private address. -/
theorem unblock_private_attempted_cex :
    isPrivateIP "10.0.0.1" = true ∧
    unblock_ip_iptables ⟨true, true, true⟩ "10.0.0.1"
      = ⟨true, true⟩ :=
  ⟨by decide, by rfl⟩

/-- Claim C4 amended: `block_ip_iptables` rejects every private/local
address before any enforcement or mock path, returning `False` without
raising; `unblock_ip_iptables` performs no such check. -/
theorem block_refuses_private (env : EnforcementEnv) (ip : String)
    (h : isPrivateIP ip = true) :
    block_ip_iptables env ip = ⟨false, false⟩ := by
  simp [block_ip_iptables, h]

/-- Claim C4 witness: the apply path refuses a concrete private address
even with real blocking enabled. -/
theorem block_refuses_private_witness :
    block_ip_iptables ⟨true, true, true⟩ "192.168.1.7" = ⟨false, false⟩ :=
  block_refuses_private ⟨true, true, true⟩ "192.168.1.7" (by decide)

/-- Claim C5 counterexample: a buffer holding exactly one retained event
(window size 5) yields `duration = 1e-6`, the epsilon floor — not the
configured window size. -/
theorem single_event_duration_cex :
    (compute_features_for_src "1.2.3.4" 5 0
        [⟨0, "1.2.3.4", none, 100, none, "OTHER", 0, 0, 0, 0⟩]).2.map Features.duration
      = some (1 / 1000000) ∧ (1 / 1000000 : ℚ) ≠ 5 := by
  constructor
  · norm_num [compute_features_for_src, featuresOf, durationOf, firstTs, lastTs, eps]
  · norm_num

/-- Claim C5 amended: for a buffer reduced to a single retained event the
duration is the epsilon floor `1e-6`; the window-size fallback branch
only applies when no timestamp exists, which an empty-buffer early
return makes unreachable. -/
theorem single_event_duration_eps (src : String) (W T : ℚ) (e : Event)
    (h : T - W ≤ e.ts) :
    (compute_features_for_src src W T [e]).2.map Features.duration = some eps := by
  have hd : decide (e.ts < T - W) = false := by simpa using not_lt.mpr h
  simp only [compute_features_for_src, List.dropWhile_cons, List.dropWhile_nil, hd,
    Bool.false_eq_true, if_false]
  simp only [featuresOf, durationOf, firstTs, lastTs, List.foldl_nil, sub_self,
    Option.map_some']
  norm_num [eps]

/-- Claim C5 witness: a concrete just-arrived source gets the epsilon
duration. -/
theorem single_event_duration_eps_witness :
    (compute_features_for_src "s" 5 0
        [⟨3, "s", none, 10, none, "OTHER", 0, 0, 0, 0⟩]).2.map Features.duration
      = some eps :=
  single_event_duration_eps "s" 5 0 _ (by norm_num)

/-- Claim C6: the heuristic rules are tried in fixed order with the first
match winning, so any feature vector with `unique_dst_ports = 400` and
`total_packets = 500` is classified as a port scan, whatever its packet
or byte rate. -/
theorem classify_port_scan_precedence (fv : FeatureVec)
    (h1 : fv.unique_dst_ports = 400) (h2 : fv.total_packets = 500) :
    classify_attack_type fv = "Port Scan" := by
  simp only [classify_attack_type, h1, h2]
  norm_num

/-- Claim C6 witness: a vector whose packet rate (5000/s) also satisfies
the flood rule still classifies as a port scan. -/
theorem classify_port_scan_precedence_witness :
    classify_attack_type ⟨"a", 500, 1000, 1, 5000, 5000, 0, 400⟩ = "Port Scan" ∧
    (1000 : ℚ) < 5000 :=
  ⟨classify_port_scan_precedence ⟨"a", 500, 1000, 1, 5000, 5000, 0, 400⟩ rfl rfl,
   by norm_num⟩

/-- Claim C7: scheduling a block of duration `D` for an address with no
active entry appends one active document with
`unblock_at = blocked_at + D` (`expireAt = unblock_at`) and one matching
history document; once `D` has elapsed the TTL sweep leaves no active
entry for the address; and no operation — TTL sweep, explicit unblock,
or block scheduling — ever removes a history document. -/
theorem block_roundtrip_history (now D : ℕ) (ip reason actor : String)
    (note : Option String) (st : DBState)
    (h : st.blocked_ips.any (fun e => decide (e.ip = ip)) = false) :
    ((schedule_block_and_unblock now ip D reason actor note st).1.blocked_ips
        = st.blocked_ips ++ [⟨ip, now, now + D, D, reason, actor, note, now + D⟩]) ∧
    ((schedule_block_and_unblock now ip D reason actor note st).1.blocked_ips_history
        = st.blocked_ips_history ++ [⟨ip, now, now + D, D, reason, actor, note⟩]) ∧
    (∀ t, now + D ≤ t →
      countActive (ttl_expire t (schedule_block_and_unblock now ip D reason actor note st).1) ip = 0) ∧
    (∀ t s, (ttl_expire t s).blocked_ips_history = s.blocked_ips_history) ∧
    (∀ a s, (remove_block a s).1.blocked_ips_history = s.blocked_ips_history) ∧
    (∀ (n d : ℕ) (a rs ac : String) (nt : Option String) (s : DBState),
        s.blocked_ips_history <+:
          (schedule_block_and_unblock n a d rs ac nt s).1.blocked_ips_history) := by
  have hb : (schedule_block_and_unblock now ip D reason actor note st).1.blocked_ips
      = st.blocked_ips ++ [⟨ip, now, now + D, D, reason, actor, note, now + D⟩] := by
    simp [schedule_block_and_unblock, h]
  have hh : (schedule_block_and_unblock now ip D reason actor note st).1.blocked_ips_history
      = st.blocked_ips_history ++ [⟨ip, now, now + D, D, reason, actor, note⟩] := by
    simp [schedule_block_and_unblock, h]
  refine ⟨hb, hh, ?_, fun t s => rfl, fun a s => rfl, ?_⟩
  · intro t ht
    unfold countActive ttl_expire
    simp only [hb]
    rw [List.length_eq_zero, List.filter_eq_nil_iff]
    intro x hx
    rw [List.mem_filter] at hx
    obtain ⟨hmem, hcond⟩ := hx
    rw [List.mem_append] at hmem
    simp only [decide_eq_true_eq]
    rcases hmem with hm | hm
    · have hall := List.any_eq_false.mp h
      have := hall x hm
      simpa using this
    · simp only [List.mem_singleton] at hm
      subst hm
      simp only [decide_eq_true_eq] at hcond
      omega
  · intro n d a rs ac nt s
    unfold schedule_block_and_unblock
    split
    · exact List.prefix_refl _
    · exact List.prefix_append _ _

/-- Claim C7 witness: a concrete block of duration 10 at time 0 expires
by the TTL sweep at time 10, leaving no active entry. -/
theorem block_roundtrip_history_witness :
    countActive
      (ttl_expire 10
        (schedule_block_and_unblock 0 "9.9.9.9" 10 "manual" "admin" none ⟨[], []⟩).1)
      "9.9.9.9" = 0 :=
  (block_roundtrip_history 0 10 "9.9.9.9" "manual" "admin" none ⟨[], []⟩
      (by decide)).2.2.1 10 (by decide)

/-- Claim C8 counterexample: at speed multiplier `1/2` with a 2-second
inter-packet gap the replay driver waits 2 seconds, not the
`(currentTs − prevTs)/speed = 4` the claim asserts — the divisor is
`max(1, speed)`, so slow-down multipliers are ignored. -/
theorem replay_wait_slowdown_cex :
    replay_wait 0 2 (1/2) = 2 ∧
    replay_wait 0 2 (1/2) ≠ max 0 ((2 - 0) / (1/2 : ℚ)) := by
  constructor <;> norm_num [replay_wait]

/-- Claim C8 amended: the replay driver waits
`max(0, (currentTs − prevTs)/max(1, speed))`: relative timing is
preserved scaled by `s` for every `s ≥ 1`, while every `s ≤ 1` behaves
as speed 1. -/
theorem replay_wait_scaled (prev cur s : ℚ) :
    (1 ≤ s → replay_wait prev cur s = max 0 ((cur - prev) / s)) ∧
    (s ≤ 1 → replay_wait prev cur s = max 0 (cur - prev)) := by
  constructor
  · intro hs
    unfold replay_wait
    rw [max_eq_right hs]
  · intro hs
    unfold replay_wait
    rw [max_eq_left hs, div_one]

/-- Claim C8 witness: speed 2 divides the gap by 2; speed 1/2 leaves the
gap unscaled. -/
theorem replay_wait_scaled_witness :
    replay_wait 0 3 2 = max 0 ((3 - 0) / 2) ∧
    replay_wait 0 2 (1/2) = max 0 ((2 : ℚ) - 0) :=
  ⟨(replay_wait_scaled 0 3 2).1 (by norm_num),
   (replay_wait_scaled 0 2 (1/2)).2 (by norm_num)⟩

/-- Claim C9: whenever the trimmed buffer is non-empty — i.e. a feature
vector is returned at all — its `unique_dst_ports` field is at least 1,
even when no retained event carries a destination port. -/
theorem compute_unique_dst_ports_ge_one (src : String) (W T : ℚ)
    (dq : List Event) (fv : Features)
    (h : (compute_features_for_src src W T dq).2 = some fv) :
    1 ≤ fv.unique_dst_ports := by
  simp only [compute_features_for_src] at h
  split at h
  · simp at h
  · simp only [Option.some.injEq] at h
    subst h
    exact featuresOf_unique_dst_ports_pos _ _ _

/-- Claim C9 witness: a single portless event still reports
`unique_dst_ports = 1`. -/
theorem compute_unique_dst_ports_ge_one_witness :
    1 ≤ (⟨"s", 1, 100, 1/1000000, 1000000, 100000000, 0, 1, 100, 0, 0, 0, 0⟩ :
        Features).unique_dst_ports :=
  compute_unique_dst_ports_ge_one "s" 5 0
    [⟨0, "s", none, 100, none, "OTHER", 0, 0, 0, 0⟩] _
    (by norm_num [compute_features_for_src, featuresOf, durationOf, firstTs, lastTs,
      eps, List.dropWhile, max_def])

/-- Claim C10: a config update never changes `blocking_enabled` — the
payload field of that name is accepted by the request model but never
read by the handler. -/
theorem update_config_preserves_blocking_enabled (now : ℕ)
    (payload : ConfigUpdate) (cfg cfg' : PolicyConfig)
    (h : update_config now payload cfg = .ok cfg') :
    cfg'.blocking_enabled = cfg.blocking_enabled := by
  unfold update_config at h
  split at h
  · split at h
    · exact absurd h (by simp)
    · split at h
      · split at h
        · exact absurd h (by simp)
        · simp only [Except.ok.injEq] at h; subst h; rfl
      · simp only [Except.ok.injEq] at h; subst h; rfl
  · split at h
    · split at h
      · exact absurd h (by simp)
      · simp only [Except.ok.injEq] at h; subst h; rfl
    · simp only [Except.ok.injEq] at h; subst h; rfl

/-- Claim C10 witness: a payload supplying `blocking_enabled = false`
leaves the toggle untouched while threshold and duration change. -/
theorem update_config_preserves_blocking_enabled_witness :
    (⟨1/2, 300, true, some 5⟩ : PolicyConfig).blocking_enabled
      = (⟨7/10, 600, true, none⟩ : PolicyConfig).blocking_enabled :=
  update_config_preserves_blocking_enabled 5 ⟨some (1/2), some 300, some false⟩
    ⟨7/10, 600, true, none⟩ ⟨1/2, 300, true, some 5⟩ (by norm_num [update_config])

end NetSentryX
